import Mathlib

/-!
Verification of the `donkeypart_bluetooth_game_controller` repository:
a shallow embedding of `part.py` (the Bluetooth game controller part for
the Donkeycar) together with proofs of the specified properties.

Numeric values are modelled over the exact reals; the stick-to-square
geometric transform uses `Real.sqrt`.
-/

/-! ## Geometric mapper (`BluetoothGameController.circ_to_square`) -/

/-- Embeds the inner helper `max0` of `circ_to_square`: `max(x, 0)`. -/
def max0 (x : ℝ) : ℝ := max x 0

/-- Embeds `BluetoothGameController.circ_to_square`: maps a circular
region to a square region (the squircle transform), clamping each
radicand at zero before taking the square root. -/
noncomputable def circ_to_square (u v : ℝ) : ℝ × ℝ :=
  let sqrt2 := Real.sqrt 2
  let x := 0.5 * ( Real.sqrt (max0 (2 + 2 * u * sqrt2 + u*u - v*v))
                 - Real.sqrt (max0 (2 - 2 * u * sqrt2 + u*u - v*v)))
  let y := 0.5 * ( Real.sqrt (max0 (2 + 2 * v * sqrt2 - u*u + v*v))
                 - Real.sqrt (max0 (2 - 2 * v * sqrt2 - u*u + v*v)))
  (x, y)

lemma circ_to_square_def (u v : ℝ) :
    circ_to_square u v =
      (0.5 * ( Real.sqrt (max0 (2 + 2 * u * Real.sqrt 2 + u*u - v*v))
             - Real.sqrt (max0 (2 - 2 * u * Real.sqrt 2 + u*u - v*v))),
       0.5 * ( Real.sqrt (max0 (2 + 2 * v * Real.sqrt 2 - u*u + v*v))
             - Real.sqrt (max0 (2 - 2 * v * Real.sqrt 2 - u*u + v*v)))) := rfl

/-- On the closed unit disk the "minus" radicand of the x-component is
already nonnegative, so the `max0` clamp is inactive. -/
lemma radicand_nonneg (u v : ℝ) (h : u^2 + v^2 ≤ 1) :
    0 ≤ 2 - 2 * u * Real.sqrt 2 + u*u - v*v := by
  have h2 : Real.sqrt 2 ^ 2 = 2 := Real.sq_sqrt (by norm_num)
  nlinarith [sq_nonneg (Real.sqrt 2 * u - 1), Real.sqrt_nonneg 2]

/-- Difference-of-square-roots bound at the heart of the squircle range
property: on the unit disk the x-formula stays at most `2` before the
final halving. -/
lemma sqrt_diff_le (u v : ℝ) (h : u^2 + v^2 ≤ 1) :
    Real.sqrt (2 + 2 * u * Real.sqrt 2 + u*u - v*v)
      - Real.sqrt (2 - 2 * u * Real.sqrt 2 + u*u - v*v) ≤ 2 := by
  have h2 : Real.sqrt 2 ^ 2 = 2 := Real.sq_sqrt (by norm_num)
  set a := 2 + 2 * u * Real.sqrt 2 + u*u - v*v with ha
  set b := 2 - 2 * u * Real.sqrt 2 + u*u - v*v with hb
  have hbsq : (Real.sqrt 2 * u - 1)^2 ≤ b := by
    rw [hb]; nlinarith
  have hsb : Real.sqrt 2 * u - 1 ≤ Real.sqrt b := by
    calc Real.sqrt 2 * u - 1 ≤ |Real.sqrt 2 * u - 1| := le_abs_self _
    _ = Real.sqrt ((Real.sqrt 2 * u - 1)^2) := (Real.sqrt_sq_eq_abs _).symm
    _ ≤ Real.sqrt b := Real.sqrt_le_sqrt hbsq
  have hble : 0 ≤ Real.sqrt b := Real.sqrt_nonneg b
  have hab : a ≤ (Real.sqrt b + 2)^2 := by
    have hbb : Real.sqrt b ^ 2 = b :=
      Real.sq_sqrt (radicand_nonneg u v h)
    nlinarith
  have : Real.sqrt a ≤ Real.sqrt b + 2 := by
    calc Real.sqrt a ≤ Real.sqrt ((Real.sqrt b + 2)^2) := Real.sqrt_le_sqrt hab
    _ = Real.sqrt b + 2 := Real.sqrt_sq (by linarith)
  linarith

/-- The x-component of `circ_to_square` on the unit disk, with the
clamps discharged. -/
lemma circ_to_square_fst_bounds (u v : ℝ) (h : u^2 + v^2 ≤ 1) :
    -1 ≤ (circ_to_square u v).1 ∧ (circ_to_square u v).1 ≤ 1 := by
  have h2 : Real.sqrt 2 ^ 2 = 2 := Real.sq_sqrt (by norm_num)
  have hbn : 0 ≤ 2 - 2 * u * Real.sqrt 2 + u*u - v*v := radicand_nonneg u v h
  have han : 0 ≤ 2 + 2 * u * Real.sqrt 2 + u*u - v*v := by
    have hn : (-u)^2 + v^2 ≤ 1 := by nlinarith
    have := radicand_nonneg (-u) v hn
    nlinarith
  have e1 : max0 (2 + 2 * u * Real.sqrt 2 + u*u - v*v)
      = 2 + 2 * u * Real.sqrt 2 + u*u - v*v := max_eq_left han
  have e2 : max0 (2 - 2 * u * Real.sqrt 2 + u*u - v*v)
      = 2 - 2 * u * Real.sqrt 2 + u*u - v*v := max_eq_left hbn
  have hup : Real.sqrt (2 + 2 * u * Real.sqrt 2 + u*u - v*v)
      - Real.sqrt (2 - 2 * u * Real.sqrt 2 + u*u - v*v) ≤ 2 :=
    sqrt_diff_le u v h
  have hdn : Real.sqrt (2 - 2 * u * Real.sqrt 2 + u*u - v*v)
      - Real.sqrt (2 + 2 * u * Real.sqrt 2 + u*u - v*v) ≤ 2 := by
    have hn : (-u)^2 + v^2 ≤ 1 := by nlinarith
    have hflip := sqrt_diff_le (-u) v hn
    have r1 : 2 + 2 * (-u) * Real.sqrt 2 + (-u)*(-u) - v*v
        = 2 - 2 * u * Real.sqrt 2 + u*u - v*v := by ring
    have r2 : 2 - 2 * (-u) * Real.sqrt 2 + (-u)*(-u) - v*v
        = 2 + 2 * u * Real.sqrt 2 + u*u - v*v := by ring
    rw [r1, r2] at hflip
    exact hflip
  rw [circ_to_square_def]
  constructor
  · simp only [e1, e2]; nlinarith
  · simp only [e1, e2]; nlinarith

/-- The y-component of `circ_to_square` is the x-component with the
arguments swapped. -/
lemma circ_to_square_snd_swap (u v : ℝ) :
    (circ_to_square u v).2 = (circ_to_square v u).1 := by
  rw [circ_to_square_def, circ_to_square_def]
  have r1 : 2 + 2 * v * Real.sqrt 2 - u*u + v*v
      = 2 + 2 * v * Real.sqrt 2 + v*v - u*u := by ring
  have r2 : 2 - 2 * v * Real.sqrt 2 - u*u + v*v
      = 2 - 2 * v * Real.sqrt 2 + v*v - u*u := by ring
  simp only [r1, r2]

/-! ## Control state machine (`BluetoothGameController`)

`itertools.cycle` is embedded as a list of items plus a running index;
`next` yields the item at the index modulo the list length and advances
the index. -/

/-- Embeds an `itertools.cycle` iterator: the underlying items and the
position of the next element to be yielded. -/
structure Cyc (α : Type) where
  items : List α
  idx : Nat

/-- Embeds Python `next` on an `itertools.cycle`: yields the current
element and the advanced iterator. -/
def Cyc.next {α : Type} [Inhabited α] (c : Cyc α) : α × Cyc α :=
  (c.items.getD (c.idx % c.items.length) default, ⟨c.items, c.idx + 1⟩)

/-- Embeds the mutable attributes of `BluetoothGameController` (the
device handle and config are factored out; `btn_map` and
`joystick_max_value` come from the config). The `state` dict maps the
decoded button name (`none` for unmapped codes and failed reads) to the
last value stored under it; an absent key is the outer `none`. -/
structure Controller where
  running : Bool
  state : Option String → Option (Option ℝ)
  angle : ℝ
  throttle : ℝ
  u : ℝ
  v : ℝ
  angle_scale : ℝ
  angle_scale_increment : ℝ
  throttle_scale : ℝ
  throttle_scale_increment : ℝ
  y_axis_direction : ℝ
  drive_mode_toggle : Cyc String
  drive_mode_autonomous_toggle : Cyc String
  drive_mode : String
  recording_toggle : Cyc Bool
  recording : Bool
  btn_map : Nat → Option String
  joystick_max_value : ℝ

/-- Embeds `BluetoothGameController.__init__` (after the config is
loaded and the device acquired): every field in its initial state. -/
def controller_init (btn_map : Nat → Option String)
    (joystick_max_value : ℝ) : Controller :=
  let dmt : Cyc String := ⟨["user", "local_angle", "local"], 0⟩
  let p := dmt.next
  let rt : Cyc Bool := ⟨[true, false], 0⟩
  let q := rt.next
  { running := false
    state := fun _ => none
    angle := 0.0
    throttle := 0.0
    u := 0
    v := 0
    angle_scale := 1.0
    angle_scale_increment := 0.05
    throttle_scale := 1.0
    throttle_scale_increment := 0.05
    y_axis_direction := -1
    drive_mode_toggle := p.2
    drive_mode_autonomous_toggle := ⟨["local_angle", "local"], 0⟩
    drive_mode := p.1
    recording_toggle := q.2
    recording := q.1
    btn_map := btn_map
    joystick_max_value := joystick_max_value }

/-- Embeds `update_stick_x_map`: store the new x-axis value, then
recompute angle and throttle from the current `(u, v)` pair. -/
noncomputable def update_stick_x_map (s : Controller) (val : ℝ) : Controller :=
  let s1 := { s with u := val }
  let xy := circ_to_square s1.u s1.v
  { s1 with angle := xy.1 * s1.angle_scale
            throttle := xy.2 * s1.throttle_scale * s1.y_axis_direction }

/-- Embeds `update_stick_y_map`: store the new y-axis value, then
recompute angle and throttle from the current `(u, v)` pair. -/
noncomputable def update_stick_y_map (s : Controller) (val : ℝ) : Controller :=
  let s1 := { s with v := val }
  let xy := circ_to_square s1.u s1.v
  { s1 with angle := xy.1 * s1.angle_scale
            throttle := xy.2 * s1.throttle_scale * s1.y_axis_direction }

/-- Embeds `start_recording`. -/
noncomputable def start_recording (s : Controller) (val : ℝ) : Controller :=
  if val = 1 then { s with recording := true } else s

/-- Embeds `stop_recording`. -/
noncomputable def stop_recording (s : Controller) (val : ℝ) : Controller :=
  if val = 1 then { s with recording := false } else s

/-- Embeds `set_drive_mode_manual`. -/
noncomputable def set_drive_mode_manual (s : Controller) (val : ℝ) : Controller :=
  if val = 1 then { s with drive_mode := "user" } else s

/-- Embeds `toggle_drive_mode_autonomous`: on `val == 1`, if the current
mode is `user` the two-state autonomous cycle is first re-created, then
the mode advances to the cycle's next element. -/
noncomputable def toggle_drive_mode_autonomous (s : Controller) (val : ℝ) :
    Controller :=
  if val = 1 then
    let s1 := if s.drive_mode = "user" then
        { s with drive_mode_autonomous_toggle := ⟨["local_angle", "local"], 0⟩ }
      else s
    let p := s1.drive_mode_autonomous_toggle.next
    { s1 with drive_mode := p.1, drive_mode_autonomous_toggle := p.2 }
  else s

/-- Embeds `increment_angle_scale`. -/
noncomputable def increment_angle_scale (s : Controller) (val : ℝ) : Controller :=
  if val = 1 then { s with angle_scale := s.angle_scale + s.angle_scale_increment }
  else s

/-- Embeds `decrement_angle_scale`. -/
noncomputable def decrement_angle_scale (s : Controller) (val : ℝ) : Controller :=
  if val = 1 then { s with angle_scale := s.angle_scale - s.angle_scale_increment }
  else s

/-- Embeds `increment_throttle_scale`. -/
noncomputable def increment_throttle_scale (s : Controller) (val : ℝ) : Controller :=
  if val = 1 then
    { s with throttle_scale := s.throttle_scale + s.throttle_scale_increment }
  else s

/-- Embeds `decrement_throttle_scale`. -/
noncomputable def decrement_throttle_scale (s : Controller) (val : ℝ) : Controller :=
  if val = 1 then
    { s with throttle_scale := s.throttle_scale - s.throttle_scale_increment }
  else s

/-- Embeds the `func_map` dispatch dict built in `__init__`: name to
handler, `none` for names without a handler. -/
noncomputable def func_map (name : String) :
    Option (Controller → ℝ → Controller) :=
  if name = "LEFT_STICK_X" then some update_stick_x_map
  else if name = "LEFT_STICK_Y" then some update_stick_y_map
  else if name = "X" then some start_recording
  else if name = "Y" then some stop_recording
  else if name = "B" then some set_drive_mode_manual
  else if name = "A" then some toggle_drive_mode_autonomous
  else if name = "PAD_RIGHT" then some increment_angle_scale
  else if name = "PAD_LEFT" then some decrement_angle_scale
  else if name = "PAD_UP" then some increment_throttle_scale
  else if name = "PAD_DOWN" then some decrement_throttle_scale
  else none

/-! ## Device session manager (`read_loop`, `update_state_from_loop`) -/

/-- Embeds an `evdev` input event: numeric code, integer value, and
whether the event type is `EV_ABS` (an axis event). -/
structure RawEvent where
  code : Nat
  value : Int
  ev_abs : Bool

/-- Outcome of one blocking device read: either a raw event, or an
`OSError` (connection lost). -/
inductive ReadOutcome where
  | event (e : RawEvent)
  | oserror

/-- Embeds `BluetoothGameController.read_loop`: decode the event's code
through the button map and normalize axis values by
`joystick_max_value`; on `OSError` the exception is swallowed (the
device is re-acquired) and `(None, None)` is returned. -/
noncomputable def read_loop (s : Controller) (r : ReadOutcome) :
    Option String × Option ℝ :=
  match r with
  | .event e =>
      let btn := s.btn_map e.code
      let val : ℝ :=
        if e.ev_abs then (e.value : ℝ) / s.joystick_max_value
        else (e.value : ℝ)
      (btn, some val)
  | .oserror => (none, none)

/-- Embeds `update_state_from_loop`: read one event, store its value in
the `state` dict under the decoded name (the `None` key for unmapped
codes and failed reads), then dispatch through `func_map` when a handler
exists. `read_loop` yields a `none` value only together with a `none`
button, for which no handler exists, so the handler is always applied to
an actual number. -/
noncomputable def update_state_from_loop (s : Controller) (r : ReadOutcome) :
    Controller :=
  let bv := read_loop s r
  let s1 := { s with state := fun k => if k = bv.1 then some bv.2 else s.state k }
  match bv.1 with
  | none => s1
  | some b =>
      match func_map b, bv.2 with
      | some f, some v => f s1 v
      | _, _ => s1

/-! ## Device lookup (`BluetoothDevice.find_input_device`, `load_device`)

A device is represented by its name; `evdev.list_devices` becomes an
explicit list of names, and for the retry loop a function from the
attempt number to the device list visible at that attempt. -/

/-- Embeds Python's case-insensitive containment test
`search_term.lower() in device.name.lower()` (lower-casing is per
character, substring containment is some-suffix-has-it-as-prefix). -/
def name_matches (search_term : String) (name : String) : Bool :=
  ((name.toList.map Char.toLower).tails).any
    (fun t => (search_term.toList.map Char.toLower).isPrefixOf t)

/-- Embeds the accumulation loop of `find_input_device` that collects
`likely_devices`: the devices whose names contain the search term. -/
def matching_devices (search_term : String) (all_devices : List String) :
    List String :=
  all_devices.filter (fun d => name_matches search_term d)

/-- Embeds `BluetoothDevice.find_input_device`: filter the attached
devices by the search term; return the device if exactly one matches,
raise `ValueError` on two or more matches, and return `None` (no
device) on zero matches. -/
def find_input_device (search_term : String) (all_devices : List String) :
    Except String (Option String) :=
  let likely_devices := matching_devices search_term all_devices
  if likely_devices.length = 1 then
    Except.ok (some (likely_devices.getD 0 ""))
  else if 2 ≤ likely_devices.length then
    Except.error ("Found multiple input devices with matching names: "
      ++ String.intercalate ", " likely_devices
      ++ " Please specify a unique name for the desired device.")
  else
    Except.ok none

/-- Embeds `BluetoothDevice.load_device`: retry `find_input_device`
(sleeping 3 s between attempts) until a device is found. `snapshots n`
is the device list seen by attempt number `n`; the `while` loop is given
explicit fuel, `Except.ok none` meaning the fuel ran out with the loop
still retrying. A raised `ValueError` propagates uncaught. -/
def load_device (search_term : String) (snapshots : Nat → List String) :
    Nat → Nat → Except String (Option String)
  | _, 0 => Except.ok none
  | k, fuel + 1 =>
      match find_input_device search_term (snapshots k) with
      | Except.error msg => Except.error msg
      | Except.ok (some d) => Except.ok (some d)
      | Except.ok none => load_device search_term snapshots (k + 1) fuel

/-! ## Diagnostics profiler (`BluetoothGameController.profile`) -/

/-- Embeds the event-counting inner loop of `profile`: starting from a
given `event_total`, count how many reads happen before a batch rate is
emitted (the loop increments `event_total` after each read and emits
once `event_total > 1000`). `fuel` bounds the loop; the count of reads
so far is threaded through. -/
def profile_batch_reads (event_total reads : Nat) : Nat → Nat
  | 0 => reads
  | fuel + 1 =>
      let et := event_total + 1
      if 1000 < et then reads + 1
      else profile_batch_reads et (reads + 1) fuel

/-- Embeds the reporting tail of `profile`: sort the collected rates,
drop the five lowest, report the maximum (the last of the sorted
remainder) and the average of the remainder. -/
def profile_report (results : List ℚ) : ℚ × ℚ :=
  let sorted_results := results.insertionSort (· ≤ ·)
  let best_5_results := sorted_results.drop 5
  (best_5_results.getLastD 0,
   best_5_results.sum / (best_5_results.length : ℚ))

/-- A concrete controller state used to instantiate theorems: the
initial state for an empty button map and the default axis maximum. -/
def c0 : Controller := controller_init (fun _ => none) 1280

/-- No handler reachable through `func_map` ever writes the `state`
dict: that write happens once per update step, before dispatch. -/
lemma func_map_preserves_state {b : String} {f : Controller → ℝ → Controller}
    (hf : func_map b = some f) : ∀ (t : Controller) (v : ℝ),
    (f t v).state = t.state := by
  unfold func_map at hf
  split_ifs at hf <;> cases hf <;> intro t v <;>
    simp only [update_stick_x_map, update_stick_y_map, start_recording,
      stop_recording, set_drive_mode_manual, toggle_drive_mode_autonomous,
      increment_angle_scale, decrement_angle_scale, increment_throttle_scale,
      decrement_throttle_scale] <;>
    split_ifs <;> rfl

/-! ## Claims -/

/-- C2: for every `(u, v)` with `u² + v² ≤ 1`, `circ_to_square u v`
lies in `[-1, 1]²`, and `circ_to_square 0 0 = (0, 0)`. -/
theorem C2_circ_to_square_range :
    (∀ u v : ℝ, u^2 + v^2 ≤ 1 →
      -1 ≤ (circ_to_square u v).1 ∧ (circ_to_square u v).1 ≤ 1 ∧
      -1 ≤ (circ_to_square u v).2 ∧ (circ_to_square u v).2 ≤ 1) ∧
    circ_to_square 0 0 = (0, 0) := by
  constructor
  · intro u v h
    obtain ⟨h1, h2⟩ := circ_to_square_fst_bounds u v h
    have hvu : v^2 + u^2 ≤ 1 := by linarith
    obtain ⟨h3, h4⟩ := circ_to_square_fst_bounds v u hvu
    rw [circ_to_square_snd_swap]
    exact ⟨h1, h2, h3, h4⟩
  · rw [circ_to_square_def]
    norm_num [max0]

/-- Witness for C2 at the boundary point `(3/5, 4/5)` of the disk. -/
theorem C2_circ_to_square_range_witness :
    ((3/5 : ℝ)^2 + (4/5 : ℝ)^2 ≤ 1) ∧
    (-1 ≤ (circ_to_square (3/5) (4/5)).1 ∧ (circ_to_square (3/5) (4/5)).1 ≤ 1 ∧
     -1 ≤ (circ_to_square (3/5) (4/5)).2 ∧ (circ_to_square (3/5) (4/5)).2 ≤ 1) :=
  ⟨by norm_num, C2_circ_to_square_range.1 (3/5) (4/5) (by norm_num)⟩

/-- C3: the geometric mapper is odd:
`circ_to_square (-u) (-v) = - circ_to_square u v` for all inputs. -/
theorem C3_circ_to_square_odd (u v : ℝ) :
    circ_to_square (-u) (-v)
      = (-(circ_to_square u v).1, -(circ_to_square u v).2) := by
  rw [circ_to_square_def, circ_to_square_def]
  have r1 : 2 + 2 * (-u) * Real.sqrt 2 + (-u)*(-u) - (-v)*(-v)
      = 2 - 2 * u * Real.sqrt 2 + u*u - v*v := by ring
  have r2 : 2 - 2 * (-u) * Real.sqrt 2 + (-u)*(-u) - (-v)*(-v)
      = 2 + 2 * u * Real.sqrt 2 + u*u - v*v := by ring
  have r3 : 2 + 2 * (-v) * Real.sqrt 2 - (-u)*(-u) + (-v)*(-v)
      = 2 - 2 * v * Real.sqrt 2 - u*u + v*v := by ring
  have r4 : 2 - 2 * (-v) * Real.sqrt 2 - (-u)*(-u) + (-v)*(-v)
      = 2 + 2 * v * Real.sqrt 2 - u*u + v*v := by ring
  rw [r1, r2, r3, r4]
  simp only [Prod.mk.injEq]
  constructor <;> ring

/-- C1: the stick handlers store the new axis value, keep the other
axis value unchanged, and recompute `angle = x * angle_scale` and
`throttle = y * throttle_scale * (-1)` from the current `(u, v)` pair
via `circ_to_square`. -/
theorem C1_stick_handlers (s : Controller) (val : ℝ)
    (hsign : s.y_axis_direction = -1) :
    ((update_stick_x_map s val).u = val ∧
     (update_stick_x_map s val).v = s.v ∧
     (update_stick_x_map s val).angle
        = (circ_to_square val s.v).1 * s.angle_scale ∧
     (update_stick_x_map s val).throttle
        = (circ_to_square val s.v).2 * s.throttle_scale * (-1)) ∧
    ((update_stick_y_map s val).v = val ∧
     (update_stick_y_map s val).u = s.u ∧
     (update_stick_y_map s val).angle
        = (circ_to_square s.u val).1 * s.angle_scale ∧
     (update_stick_y_map s val).throttle
        = (circ_to_square s.u val).2 * s.throttle_scale * (-1)) := by
  refine ⟨⟨rfl, rfl, rfl, ?_⟩, ⟨rfl, rfl, rfl, ?_⟩⟩
  · show (circ_to_square val s.v).2 * s.throttle_scale * s.y_axis_direction
        = (circ_to_square val s.v).2 * s.throttle_scale * (-1)
    rw [hsign]
  · show (circ_to_square s.u val).2 * s.throttle_scale * s.y_axis_direction
        = (circ_to_square s.u val).2 * s.throttle_scale * (-1)
    rw [hsign]

/-- Witness for C1 at the initial controller state and `val = 0`. -/
theorem C1_stick_handlers_witness :
    c0.y_axis_direction = -1 ∧
    (update_stick_x_map c0 0).u = 0 ∧
    (update_stick_x_map c0 0).angle
      = (circ_to_square 0 c0.v).1 * c0.angle_scale :=
  ⟨by norm_num [c0, controller_init],
   (C1_stick_handlers c0 0 (by norm_num [c0, controller_init])).1.1,
   (C1_stick_handlers c0 0 (by norm_num [c0, controller_init])).1.2.2.1⟩

/-- C8: the freshly constructed controller has `angle = 0`,
`throttle = 0`, both scales `1`, stick values `(0, 0)`,
`drive_mode = "user"`, and `recording = true`. -/
theorem C8_initial_state (btn_map : Nat → Option String) (jmax : ℝ) :
    (controller_init btn_map jmax).angle = 0.0 ∧
    (controller_init btn_map jmax).throttle = 0.0 ∧
    (controller_init btn_map jmax).angle_scale = 1.0 ∧
    (controller_init btn_map jmax).throttle_scale = 1.0 ∧
    (controller_init btn_map jmax).u = 0 ∧
    (controller_init btn_map jmax).v = 0 ∧
    (controller_init btn_map jmax).drive_mode = "user" ∧
    (controller_init btn_map jmax).recording = true :=
  ⟨rfl, rfl, rfl, rfl, rfl, rfl, rfl, rfl⟩

/-- C5: whenever the current mode is `user`, a press (`val = 1`) of the
autonomous-toggle handler yields `local_angle`, never `local`. -/
theorem C5_drive_mode_reset_rule (s : Controller) (h : s.drive_mode = "user") :
    (toggle_drive_mode_autonomous s 1).drive_mode = "local_angle" := by
  simp [toggle_drive_mode_autonomous, h, Cyc.next]

/-- Witness for C5 at the initial controller state. -/
theorem C5_drive_mode_reset_rule_witness :
    c0.drive_mode = "user" ∧
    (toggle_drive_mode_autonomous c0 1).drive_mode = "local_angle" :=
  ⟨rfl, C5_drive_mode_reset_rule c0 rfl⟩

/-- Once the autonomous cycle holds `{local_angle, local}` with index
`m + 1` and the mode is the element the index `m` yielded, every
further press alternates the mode along the cycle. -/
lemma toggleA_iterate : ∀ (n m : Nat) (s : Controller),
    s.drive_mode_autonomous_toggle = ⟨["local_angle", "local"], m + 1⟩ →
    s.drive_mode = (if m % 2 = 0 then "local_angle" else "local") →
    ((fun t => toggle_drive_mode_autonomous t 1)^[n] s).drive_mode
      = if (m + n) % 2 = 0 then "local_angle" else "local" := by
  intro n
  induction n with
  | zero => intro m s hc hm; simpa using hm
  | succ n ih =>
      intro m s hc hm
      rw [Function.iterate_succ_apply]
      have hnu : ¬ s.drive_mode = "user" := by
        rw [hm]; rcases Nat.mod_two_eq_zero_or_one m with h | h <;> simp [h]
      have hc1 : (toggle_drive_mode_autonomous s 1).drive_mode_autonomous_toggle
          = ⟨["local_angle", "local"], m + 2⟩ := by
        simp [toggle_drive_mode_autonomous, hnu, Cyc.next, hc]
      have hm1 : (toggle_drive_mode_autonomous s 1).drive_mode
          = if (m + 1) % 2 = 0 then "local_angle" else "local" := by
        rcases Nat.mod_two_eq_zero_or_one (m + 1) with h | h <;>
          simp [toggle_drive_mode_autonomous, hnu, Cyc.next, hc, h]
      have := ih (m + 1) (toggle_drive_mode_autonomous s 1)
        (by simpa using hc1) hm1
      have harith : m + 1 + n = m + (n + 1) := by omega
      rwa [harith] at this

/-- C4: the start-recording, stop-recording and set-manual handlers are
edge-triggered and idempotent on a held press; any of the four button
handlers ignores `val ≠ 1`; the autonomous-toggle handler advances its
cycle on every `val = 1` press, and starting from `user` the presses
follow `local_angle, local, local_angle, ...`. -/
theorem C4_edge_triggering :
    (∀ s : Controller,
        start_recording (start_recording s 1) 1 = start_recording s 1 ∧
        stop_recording (stop_recording s 1) 1 = stop_recording s 1 ∧
        set_drive_mode_manual (set_drive_mode_manual s 1) 1
          = set_drive_mode_manual s 1) ∧
    (∀ (s : Controller) (val : ℝ), val ≠ 1 →
        start_recording s val = s ∧ stop_recording s val = s ∧
        set_drive_mode_manual s val = s ∧
        toggle_drive_mode_autonomous s val = s) ∧
    (∀ s : Controller,
        (toggle_drive_mode_autonomous s 1).drive_mode_autonomous_toggle.idx
          = (if s.drive_mode = "user" then 0
             else s.drive_mode_autonomous_toggle.idx) + 1) ∧
    (∀ s : Controller, s.drive_mode = "user" → ∀ n : Nat,
        ((fun t => toggle_drive_mode_autonomous t 1)^[n + 1] s).drive_mode
          = if n % 2 = 0 then "local_angle" else "local") := by
  refine ⟨?_, ?_, ?_, ?_⟩
  · intro s
    refine ⟨?_, ?_, ?_⟩ <;>
      simp [start_recording, stop_recording, set_drive_mode_manual]
  · intro s val h
    refine ⟨?_, ?_, ?_, ?_⟩ <;>
      simp [start_recording, stop_recording, set_drive_mode_manual,
        toggle_drive_mode_autonomous, h]
  · intro s
    by_cases h : s.drive_mode = "user" <;>
      simp [toggle_drive_mode_autonomous, h, Cyc.next]
  · intro s h n
    rw [Function.iterate_succ_apply]
    have hc1 : (toggle_drive_mode_autonomous s 1).drive_mode_autonomous_toggle
        = ⟨["local_angle", "local"], 1⟩ := by
      simp [toggle_drive_mode_autonomous, h, Cyc.next]
    have hm1 : (toggle_drive_mode_autonomous s 1).drive_mode
        = if 0 % 2 = 0 then "local_angle" else "local" := by
      simp [toggle_drive_mode_autonomous, h, Cyc.next]
    have := toggleA_iterate n 0 (toggle_drive_mode_autonomous s 1) hc1 hm1
    simpa using this

/-- C6: a failed read returns the no-event pair `(None, None)` instead
of raising, and the subsequent update step leaves the scales, drive
mode, recording flag, outputs and stored stick values unchanged, so the
loop resumes with the previously-set control state. -/
theorem C6_reconnection_preserves_state (s : Controller) :
    read_loop s ReadOutcome.oserror = (none, none) ∧
    (update_state_from_loop s ReadOutcome.oserror).angle_scale
        = s.angle_scale ∧
    (update_state_from_loop s ReadOutcome.oserror).throttle_scale
        = s.throttle_scale ∧
    (update_state_from_loop s ReadOutcome.oserror).drive_mode
        = s.drive_mode ∧
    (update_state_from_loop s ReadOutcome.oserror).recording
        = s.recording ∧
    (update_state_from_loop s ReadOutcome.oserror).angle = s.angle ∧
    (update_state_from_loop s ReadOutcome.oserror).throttle = s.throttle ∧
    (update_state_from_loop s ReadOutcome.oserror).u = s.u ∧
    (update_state_from_loop s ReadOutcome.oserror).v = s.v :=
  ⟨rfl, rfl, rfl, rfl, rfl, rfl, rfl, rfl, rfl⟩

/-- C10: every update step writes exactly one `state` entry, keyed by
the decoded name; unmapped codes and failed reads share the `None` key;
in both of those cases no handler runs, so the control fields are
unchanged. -/
theorem C10_state_map_update (s : Controller) (r : ReadOutcome) :
    ((update_state_from_loop s r).state (read_loop s r).1
        = some (read_loop s r).2) ∧
    (∀ k, k ≠ (read_loop s r).1 →
        (update_state_from_loop s r).state k = s.state k) ∧
    (∀ e : RawEvent, s.btn_map e.code = none →
        (read_loop s (ReadOutcome.event e)).1 = none) ∧
    ((read_loop s ReadOutcome.oserror).1 = none) ∧
    (∀ e : RawEvent, s.btn_map e.code = none →
        (update_state_from_loop s (ReadOutcome.event e)).angle = s.angle ∧
        (update_state_from_loop s (ReadOutcome.event e)).throttle
            = s.throttle ∧
        (update_state_from_loop s (ReadOutcome.event e)).angle_scale
            = s.angle_scale ∧
        (update_state_from_loop s (ReadOutcome.event e)).throttle_scale
            = s.throttle_scale ∧
        (update_state_from_loop s (ReadOutcome.event e)).drive_mode
            = s.drive_mode ∧
        (update_state_from_loop s (ReadOutcome.event e)).recording
            = s.recording) ∧
    ((update_state_from_loop s ReadOutcome.oserror).angle = s.angle ∧
     (update_state_from_loop s ReadOutcome.oserror).throttle = s.throttle ∧
     (update_state_from_loop s ReadOutcome.oserror).angle_scale
        = s.angle_scale ∧
     (update_state_from_loop s ReadOutcome.oserror).throttle_scale
        = s.throttle_scale ∧
     (update_state_from_loop s ReadOutcome.oserror).drive_mode
        = s.drive_mode ∧
     (update_state_from_loop s ReadOutcome.oserror).recording
        = s.recording) := by
  refine ⟨?_, ?_, ?_, rfl, ?_, ⟨rfl, rfl, rfl, rfl, rfl, rfl⟩⟩
  · cases r with
    | oserror => simp [update_state_from_loop, read_loop]
    | event e =>
        rcases hb : s.btn_map e.code with _ | b
        · simp [update_state_from_loop, read_loop, hb]
        · rcases hf : func_map b with _ | f
          · simp [update_state_from_loop, read_loop, hb, hf]
          · simp [update_state_from_loop, read_loop, hb, hf,
              func_map_preserves_state hf]
  · intro k hk
    cases r with
    | oserror =>
        simp only [read_loop] at hk
        simp [update_state_from_loop, read_loop, hk]
    | event e =>
        simp only [read_loop] at hk
        rcases hb : s.btn_map e.code with _ | b
        · rw [hb] at hk
          simp [update_state_from_loop, read_loop, hb, hk]
        · rw [hb] at hk
          rcases hf : func_map b with _ | f
          · simp [update_state_from_loop, read_loop, hb, hf, hk]
          · simp [update_state_from_loop, read_loop, hb, hf, hk,
              func_map_preserves_state hf]
  · intro e hb
    simp [read_loop, hb]
  · intro e hb
    refine ⟨?_, ?_, ?_, ?_, ?_, ?_⟩ <;>
      simp [update_state_from_loop, read_loop, hb]

/-- Witness for C10 at the initial controller state (whose button map
is empty) and the raw event with code `0` and value `5`. -/
theorem C10_state_map_update_witness :
    c0.btn_map 0 = none ∧
    (read_loop c0 (ReadOutcome.event ⟨0, 5, false⟩)).1 = none ∧
    (update_state_from_loop c0 (ReadOutcome.event ⟨0, 5, false⟩)).angle
        = c0.angle ∧
    (update_state_from_loop c0 (ReadOutcome.event ⟨0, 5, false⟩)).recording
        = c0.recording ∧
    ((some "A" : Option String)
        ≠ (read_loop c0 (ReadOutcome.event ⟨0, 5, false⟩)).1 ∧
     (update_state_from_loop c0 (ReadOutcome.event ⟨0, 5, false⟩)).state
          (some "A")
        = c0.state (some "A")) :=
  ⟨rfl,
   (C10_state_map_update c0 (ReadOutcome.event ⟨0, 5, false⟩)).2.2.1
     ⟨0, 5, false⟩ rfl,
   ((C10_state_map_update c0 (ReadOutcome.event ⟨0, 5, false⟩)).2.2.2.2.1
     ⟨0, 5, false⟩ rfl).1,
   ((C10_state_map_update c0 (ReadOutcome.event ⟨0, 5, false⟩)).2.2.2.2.1
     ⟨0, 5, false⟩ rfl).2.2.2.2.2,
   ⟨by simp [read_loop, c0, controller_init],
    (C10_state_map_update c0 (ReadOutcome.event ⟨0, 5, false⟩)).2.1
      (some "A") (by simp [read_loop, c0, controller_init])⟩⟩

/-- Witness for C4: at the initial controller state, a `val = 0` press
changes nothing, and from `user` two presses reach `local`. -/
theorem C4_edge_triggering_witness :
    ((0 : ℝ) ≠ 1 ∧ toggle_drive_mode_autonomous c0 0 = c0) ∧
    (c0.drive_mode = "user" ∧
     ((fun t => toggle_drive_mode_autonomous t 1)^[2] c0).drive_mode
        = "local") :=
  ⟨⟨by norm_num, (C4_edge_triggering.2.1 c0 0 (by norm_num)).2.2.2⟩,
   ⟨rfl, by simpa using C4_edge_triggering.2.2.2 c0 rfl 1⟩⟩

/-- With two or more matches the lookup raises `ValueError`. -/
lemma find_two_or_more {search_term : String} {devices : List String}
    (h : 2 ≤ (matching_devices search_term devices).length) :
    find_input_device search_term devices
      = Except.error ("Found multiple input devices with matching names: "
          ++ String.intercalate ", " (matching_devices search_term devices)
          ++ " Please specify a unique name for the desired device.") := by
  unfold find_input_device
  have h1 : ¬ (matching_devices search_term devices).length = 1 := by omega
  rw [if_neg h1, if_pos h]

/-- With no match the lookup returns `None`. -/
lemma find_zero {search_term : String} {devices : List String}
    (h : (matching_devices search_term devices).length = 0) :
    find_input_device search_term devices = Except.ok none := by
  unfold find_input_device
  have h1 : ¬ (matching_devices search_term devices).length = 1 := by omega
  have h2 : ¬ 2 ≤ (matching_devices search_term devices).length := by omega
  rw [if_neg h1, if_neg h2]

/-- With exactly one match the lookup returns that device. -/
lemma find_one {search_term : String} {devices : List String}
    (h : (matching_devices search_term devices).length = 1) :
    find_input_device search_term devices
      = Except.ok (some ((matching_devices search_term devices).getD 0 "")) := by
  unfold find_input_device
  rw [if_pos h]

/-- The lookup yields a device only in the exactly-one-match case. -/
lemma find_ok_some {search_term : String} {devices : List String} {d : String}
    (h : find_input_device search_term devices = Except.ok (some d)) :
    (matching_devices search_term devices).length = 1 ∧
    d = (matching_devices search_term devices).getD 0 "" := by
  simp only [find_input_device] at h
  split_ifs at h with h1 h2
  · refine ⟨h1, ?_⟩
    injection h with h3
    injection h3 with h4
    exact h4.symm
  all_goals simp at h

/-- C7: on two or more matches the lookup errors and the retry loop
propagates the error; on zero matches it returns no device and the
retry loop keeps retrying without ever assigning; the loop assigns a
device and terminates only when some attempt sees exactly one match. -/
theorem C7_device_lookup :
    (∀ (search_term : String) (devices : List String),
        2 ≤ (matching_devices search_term devices).length →
        ∃ msg, find_input_device search_term devices = Except.error msg ∧
          ∀ (snapshots : Nat → List String) (k fuel : Nat),
            snapshots k = devices →
            load_device search_term snapshots k (fuel + 1)
              = Except.error msg) ∧
    (∀ (search_term : String) (devices : List String),
        (matching_devices search_term devices).length = 0 →
        find_input_device search_term devices = Except.ok none) ∧
    (∀ (search_term : String) (snapshots : Nat → List String) (k fuel : Nat),
        (∀ n, (matching_devices search_term (snapshots n)).length = 0) →
        load_device search_term snapshots k fuel = Except.ok none) ∧
    (∀ (search_term : String) (devices : List String),
        (matching_devices search_term devices).length = 1 →
        find_input_device search_term devices
          = Except.ok (some ((matching_devices search_term devices).getD 0 ""))) ∧
    (∀ (search_term : String) (snapshots : Nat → List String)
        (k fuel : Nat) (d : String),
        load_device search_term snapshots k fuel = Except.ok (some d) →
        ∃ n, (matching_devices search_term (snapshots n)).length = 1 ∧
          d = (matching_devices search_term (snapshots n)).getD 0 "") := by
  refine ⟨?_, ?_, ?_, ?_, ?_⟩
  · intro search_term devices h
    refine ⟨_, find_two_or_more h, ?_⟩
    intro snapshots k fuel hk
    subst hk
    simp [load_device, find_two_or_more h]
  · intro search_term devices h
    exact find_zero h
  · intro search_term snapshots k fuel hall
    induction fuel generalizing k with
    | zero => rfl
    | succ fuel ih =>
        have hfind := find_zero (hall k)
        simp [load_device, hfind, ih (k + 1)]
  · intro search_term devices h
    exact find_one h
  · intro search_term snapshots k fuel d h
    induction fuel generalizing k with
    | zero => simp [load_device] at h
    | succ fuel ih =>
        simp only [load_device] at h
        rcases hfind : find_input_device search_term (snapshots k)
          with msg | od
        · rw [hfind] at h
          simp at h
        · rcases od with _ | x
          · rw [hfind] at h
            simp at h
            exact ih (k + 1) h
          · rw [hfind] at h
            simp at h
            obtain ⟨h1, h2⟩ := find_ok_some hfind
            exact ⟨k, h1, by rw [← h, h2]⟩

/-- Witness for C7: search term `"a"`, an ambiguous device list
`["ab", "ca"]`, a never-matching list `["xyz"]`, and a unique
match `["ab"]`. -/
theorem C7_device_lookup_witness :
    (2 ≤ (matching_devices "a" ["ab", "ca"]).length ∧
     ∃ msg, find_input_device "a" ["ab", "ca"] = Except.error msg) ∧
    ((matching_devices "a" ["xyz"]).length = 0 ∧
     find_input_device "a" ["xyz"] = Except.ok none) ∧
    load_device "a" (fun _ => ["xyz"]) 0 5 = Except.ok none ∧
    ((matching_devices "a" ["ab"]).length = 1 ∧
     find_input_device "a" ["ab"] = Except.ok (some "ab")) :=
  ⟨⟨by decide, (C7_device_lookup.1 "a" ["ab", "ca"] (by decide)).elim
      (fun msg hm => ⟨msg, hm.1⟩)⟩,
   ⟨by decide, C7_device_lookup.2.1 "a" ["xyz"] (by decide)⟩,
   C7_device_lookup.2.2.1 "a" (fun _ => ["xyz"]) 0 5
     (fun _ => by show (matching_devices "a" ["xyz"]).length = 0; decide),
   ⟨by decide, C7_device_lookup.2.2.2.1 "a" ["ab"] (by decide)⟩⟩

set_option maxRecDepth 8000 in
/-- C9 (against the claimed 1000): starting a batch at `event_total = 0`,
the profiler performs 1001 reads before emitting a batch rate (the
counter is incremented and only then compared with `> 1000`), not 1000;
the reporting tail does sort the ten rates, drop the five lowest, and
report the maximum and the average of the remaining five. -/
theorem C9_profiler_batches :
    profile_batch_reads 0 0 2000 = 1001 ∧
    profile_batch_reads 0 0 2000 ≠ 1000 ∧
    profile_report [3, 1, 4, 1, 5, 9, 2, 6, 5, 8] = (9, 33 / 5) := by
  have h : profile_batch_reads 0 0 2000 = 1001 := by decide
  refine ⟨h, by rw [h]; norm_num, ?_⟩
  norm_num [profile_report, List.insertionSort, List.orderedInsert]
